import Mathlib

/-!
Shallow embedding of the blog application in src/script.js.

The program is a single-page blog whose persistence layer is the browser
key-value storage. We embed the storage-facing and state-mutating parts of
the code as pure Lean functions: every function takes the relevant slices of
application state (in-memory collections, stored collections, the current
session object, the clock) as explicit arguments and returns the updated
slices together with the visible result. Timestamps are modelled as `Int`
milliseconds. ISO-8601 date strings produced by Date.prototype.toISOString
are modelled by an injective encoding of the millisecond instant, because no
function in the program inspects the character format of these strings; the
only operationally relevant facts are that the encoding determines the
instant and that the encoded value is a string, not a number.
-/

set_option maxRecDepth 40000

namespace Blog

/-! ## JavaScript primitives -/

/-- Coercion of an integer to a 32-bit signed value, as performed by the
JavaScript operators `<<` and `&` inside hashPassword. -/
def toInt32 (n : Int) : Int := (n + 2 ^ 31) % 2 ^ 32 - 2 ^ 31

/-- hashPassword (script.js:2094-2102): folds the UTF-16 character codes with
hash = ((hash << 5) - hash) + char, coerced to a 32-bit integer at each step
by the shift and by hash & hash, then renders Math.abs(hash) in base 16. -/
def hashPassword (password : String) : String :=
  let h := password.data.foldl (fun h c => toInt32 (toInt32 (h * 32) - h + c.toNat)) 0
  String.mk (Nat.toDigits 16 h.natAbs)

/-- String.prototype.trim: strip leading and trailing whitespace. Defined
over the character list so that it is kernel-computable. -/
def jsTrim (s : String) : String :=
  String.mk (((s.data.dropWhile Char.isWhitespace).reverse.dropWhile Char.isWhitespace).reverse)

/-- Date.prototype.toISOString, modelled as an injective encoding of the
millisecond instant (see the module comment). -/
def toISOString (ms : Int) : String := toString ms

/-- Mutation of the first list element satisfying a predicate, as performed
in the source by Array.prototype.find followed by in-place field updates on
the found object. -/
def updateFirst (p : α → Bool) (f : α → α) : List α → List α
  | [] => []
  | x :: xs => if p x then f x :: xs else x :: updateFirst p f xs

/-! ## Data model -/

/-- A JavaScript value as far as the session-validation code distinguishes
values: number, string, boolean or null. -/
inductive JVal where
  | jnum (n : Int)
  | jstr (s : String)
  | jbool (b : Bool)
  | jnull
deriving DecidableEq

/-- JavaScript truthiness of an object field; `none` models an absent field
(undefined). -/
def jsTruthy : Option JVal → Bool
  | none => false
  | some (.jnum n) => n ≠ 0
  | some (.jstr s) => s ≠ ""
  | some (.jbool b) => b
  | some .jnull => false

/-- The session object (stored under the blogUser key, held in
this.currentUser). Fields are optional JVal so that both field absence and
the runtime type of a present field are represented; validateUserObject
branches on exactly these distinctions. -/
structure SessionObj where
  id : Option JVal
  username : Option JVal
  isAdmin : Option JVal
  email : Option JVal
  loginTime : Option JVal
  sessionExpiry : Option JVal
deriving DecidableEq

/-- A user record from the blogUsers collection. password holds the stored
digest. lastLogin and lockedUntil are ISO strings or null in the source and
are modelled by their instants; isLocked is absent on records never touched
by lockUser, and absence is falsy, so it is modelled as Bool with default
false; loginAttempts is absent on legacy records, which the source reads as
user.loginAttempts || 0, so it is modelled as Option Nat. -/
structure User where
  id : String
  username : String
  password : String
  isAdmin : Bool
  email : String
  createdAt : String
  lastLogin : Option Int
  loginAttempts : Option Nat
  lockedUntil : Option Int
  isLocked : Bool
deriving DecidableEq

/-- A notification emitted by showNotification: its severity kind, the
display duration in milliseconds, and whether it auto-dismisses (the source
passes autoClose = false, with duration 0, for the lockout notices). -/
structure Notif where
  kind : String
  durationMs : Nat
  autoClose : Bool
deriving DecidableEq

/-! ## Session validation -/

/-- Thirty days in milliseconds (script.js:1011). -/
def thirtyDaysInMs : Int := 30 * 24 * 60 * 60 * 1000

/-- validateUserObject (script.js:994-1028). Rejects a null or non-object
candidate; rejects a missing, non-string or whitespace-only username;
rejects a missing, zero or non-number loginTime; rejects a loginTime more
than thirty days before now; finally requires the isAdmin field to be
present. `none` models both null and non-object candidates. -/
def validateUserObject (now : Int) (user : Option SessionObj) : Bool :=
  match user with
  | none => false
  | some u =>
    match u.username with
    | some (.jstr s) =>
      if jsTrim s = "" then false
      else
        match u.loginTime with
        | some (.jnum t) =>
          if t = 0 then false
          else if now - t > thirtyDaysInMs then false
          else u.isAdmin.isSome
        | _ => false
    | _ => false

/-! ## Login (handleLoginScreen) -/

/-- The visible outcome class of a login attempt, mirroring the notification
branches of handleLoginScreen (script.js:1955-2089). accountLocked carries
the remaining minutes that the notification message interpolates. -/
inductive LoginResult where
  | missingInput
  | passwordTooShort
  | userNotFound
  | accountLocked (remainingMinutes : Int)
  | lockedOut
  | wrongPassword (remainingAttempts : Nat)
  | success (isAdmin : Bool)
deriving DecidableEq

/-- Everything handleLoginScreen changes or emits: the in-memory users list
afterwards, whether blogUsers was written back, this.currentUser afterwards,
the blogUser write if one happened, and the notification. -/
structure LoginOutcome where
  result : LoginResult
  users : List User
  wroteUsers : Bool
  currentUser : Option SessionObj
  wroteSession : Option (Option SessionObj)
  notif : Notif
deriving DecidableEq

/-- The admin record constructed by initializeAdminAccount
(script.js:2114-2124); the source sets createdAt to the current ISO time and
does not set an isLocked field. -/
def adminAccount (now : Int) : User :=
  { id := "admin-original", username := "zcr", password := hashPassword "20120508",
    isAdmin := true, email := "zcr@blog.com", createdAt := toISOString now,
    lastLogin := none, loginAttempts := some 0, lockedUntil := none, isLocked := false }

/-- initializeAdminAccount (script.js:2107-2194). If no user is named zcr,
any legacy user named admin is removed and the fresh admin record is
appended; otherwise the existing zcr record has its password digest patched
back to the canonical one. (The existing-record branch also backfills the
id, isAdmin, email and createdAt fields when absent; our User structure is
total, so only the password patch is representable and modelled.) -/
def ensureAdminAccount (now : Int) (users : List User) : List User :=
  if users.any (·.username = "zcr") then
    updateFirst (·.username = "zcr")
      (fun u => { u with password := hashPassword "20120508" }) users
  else
    users.filter (fun u => u.username ≠ "admin") ++ [adminAccount now]

/-- The session object constructed on successful login (script.js:2032-2039):
loginTime is new Date().toISOString(), a string; sessionExpiry is
Date.now() + 24h, a number. -/
def mkLoginSession (now : Int) (u : User) : SessionObj :=
  { id := some (.jstr u.id), username := some (.jstr u.username),
    isAdmin := some (.jbool u.isAdmin), email := some (.jstr u.email),
    loginTime := some (.jstr (toISOString now)),
    sessionExpiry := some (.jnum (now + 24 * 60 * 60 * 1000)) }

/-- The in-place update of the found user record on successful login
(script.js:2028-2030). -/
def loginSuccessUpdate (now : Int) (u : User) : User :=
  { u with loginAttempts := some 0, lockedUntil := none, lastLogin := some now }

/-- The in-place update of the found user record on a password mismatch
(script.js:2070-2074): increment loginAttempts, and set lockedUntil to
now + 30 minutes when the incremented count reaches 5. -/
def loginMismatchUpdate (now : Int) (u : User) : User :=
  let a := u.loginAttempts.getD 0 + 1
  { u with loginAttempts := some a,
           lockedUntil := if 5 ≤ a then some (now + 30 * 60 * 1000) else u.lockedUntil }

/-- The password-comparison phase of handleLoginScreen (script.js:2022-2088),
reached after the lockout check. On a digest match the found record is
reset, a session is built and persisted, and this.currentUser is replaced;
on a mismatch the found record is updated per loginMismatchUpdate, blogUsers
is written back, and the session state is untouched. -/
def loginPasswordPhase (now : Int) (cur : Option SessionObj) (users : List User)
    (user : User) (password : String) : LoginOutcome :=
  if user.password = hashPassword password then
    let users' := updateFirst (·.username = user.username) (loginSuccessUpdate now) users
    let session := mkLoginSession now user
    { result := .success user.isAdmin, users := users', wroteUsers := true,
      currentUser := some session, wroteSession := some (some session),
      notif := ⟨"success", 2500, true⟩ }
  else
    let a := user.loginAttempts.getD 0 + 1
    let users' := updateFirst (·.username = user.username) (loginMismatchUpdate now) users
    if 5 ≤ a then
      { result := .lockedOut, users := users', wroteUsers := true,
        currentUser := cur, wroteSession := none, notif := ⟨"error", 0, false⟩ }
    else
      { result := .wrongPassword (5 - a), users := users', wroteUsers := true,
        currentUser := cur, wroteSession := none, notif := ⟨"error", 4000, true⟩ }

/-- handleLoginScreen (script.js:1955-2089), from the point where the form
values have been read. `users0` is the user collection as re-synchronised
from storage by lines 1978-1997 (the function re-reads blogUsers before the
lookup; we take that freshly read list as the argument). The special branch
at lines 1986-1993 recreates the admin account when the attempted username
is zcr and no such record exists. Input validation happens before any
storage access; the lockout check precedes the password comparison, so a
locked account rejects even a correct password. -/
def handleLoginScreen (now : Int) (cur : Option SessionObj) (users0 : List User)
    (username password : String) : LoginOutcome :=
  if username = "" || password = "" then
    { result := .missingInput, users := users0, wroteUsers := false,
      currentUser := cur, wroteSession := none, notif := ⟨"error", 4000, true⟩ }
  else if password.length < 6 then
    { result := .passwordTooShort, users := users0, wroteUsers := false,
      currentUser := cur, wroteSession := none, notif := ⟨"error", 4000, true⟩ }
  else
    let users := if username = "zcr" && !(users0.any (·.username = "zcr")) then
                   ensureAdminAccount now users0
                 else users0
    match users.find? (·.username = username) with
    | none =>
      { result := .userNotFound, users := users, wroteUsers := false,
        currentUser := cur, wroteSession := none, notif := ⟨"error", 4000, true⟩ }
    | some user =>
      match user.lockedUntil with
      | some t =>
        if now < t then
          { result := .accountLocked ((t - now + 59999) / 60000), users := users,
            wroteUsers := false, currentUser := cur, wroteSession := none,
            notif := ⟨"error", 0, false⟩ }
        else loginPasswordPhase now cur users user password
      | none => loginPasswordPhase now cur users user password

/-! ## Content manager: comments -/

/-- A comment record from the blogComments collection. createdAt is an ISO
string in the source, modelled by its instant. -/
structure Comment where
  id : String
  articleId : String
  author : String
  content : String
  createdAt : Int
  isAdmin : Bool
  isPinned : Bool
deriving DecidableEq

/-- The truthiness of this.currentUser && this.currentUser.isAdmin, the
admin gate used by the moderation handlers. -/
def sessionIsAdmin (cur : Option SessionObj) : Bool :=
  match cur with
  | some s => jsTruthy s.isAdmin
  | none => false

/-- Outcome of submitComment: the boolean return value, the comment list
afterwards, whether blogComments was written back, and the notification. -/
structure CommentOutcome where
  ok : Bool
  comments : List Comment
  wroteComments : Bool
  notif : Notif
deriving DecidableEq

/-- submitComment (script.js:2636-2670). Rejects when articleId, author or
content is falsy (empty), when content.length < 2, or when
content.length > 1000; the length checks are on the raw, untrimmed content.
On acceptance it appends a comment whose author and content are trimmed,
whose isAdmin snapshots the acting session, and persists the collection.
`newId` stands for the Date.now/Math.random generated comment id. -/
def submitComment (now : Int) (newId : String) (cur : Option SessionObj)
    (comments : List Comment) (articleId author content : String) : CommentOutcome :=
  if articleId = "" || author = "" || content = "" then
    { ok := false, comments := comments, wroteComments := false, notif := ⟨"error", 4000, true⟩ }
  else if content.length < 2 then
    { ok := false, comments := comments, wroteComments := false, notif := ⟨"error", 3000, true⟩ }
  else if content.length > 1000 then
    { ok := false, comments := comments, wroteComments := false, notif := ⟨"error", 4000, true⟩ }
  else
    let c : Comment :=
      { id := newId, articleId := articleId, author := jsTrim author,
        content := jsTrim content, createdAt := now,
        isAdmin := sessionIsAdmin cur, isPinned := false }
    { ok := true, comments := comments ++ [c], wroteComments := true,
      notif := ⟨"success", 2500, true⟩ }

/-- Result class of a moderation operation, mirroring its early-return
branches. -/
inductive ModResult where
  | permissionDenied
  | cancelled
  | notFound
  | adminProtected
  | noSelection
  | invalidEmail
  | done
deriving DecidableEq

/-- Outcome of a comment moderation operation. -/
structure CommentsMod where
  result : ModResult
  comments : List Comment
  wroteComments : Bool
deriving DecidableEq

/-- deleteComment (script.js:2675-2699). Gated on the acting session being an
admin; then asks for confirmation; then splices out the comment found by id
and persists. `confirmOk` is the confirm() dialog answer. -/
def deleteComment (cur : Option SessionObj) (confirmOk : Bool)
    (comments : List Comment) (commentId : String) : CommentsMod :=
  if !(sessionIsAdmin cur) then
    { result := .permissionDenied, comments := comments, wroteComments := false }
  else if !confirmOk then
    { result := .cancelled, comments := comments, wroteComments := false }
  else
    match comments.findIdx? (·.id = commentId) with
    | none => { result := .notFound, comments := comments, wroteComments := false }
    | some i => { result := .done, comments := comments.eraseIdx i, wroteComments := true }

/-- pinComment (script.js:2704-2724). Gated on the acting session being an
admin; toggles isPinned on the comment found by id and persists. -/
def pinComment (cur : Option SessionObj) (comments : List Comment)
    (commentId : String) : CommentsMod :=
  if !(sessionIsAdmin cur) then
    { result := .permissionDenied, comments := comments, wroteComments := false }
  else
    match comments.find? (·.id = commentId) with
    | none => { result := .notFound, comments := comments, wroteComments := false }
    | some _ =>
      { result := .done,
        comments := updateFirst (·.id = commentId)
          (fun c => { c with isPinned := !c.isPinned }) comments,
        wroteComments := true }

/-! ## Content manager: user administration -/

/-- Outcome of a users-collection operation that touches only blogUsers. -/
structure UsersMod where
  result : ModResult
  users : List User
  wroteUsers : Bool
deriving DecidableEq

/-- lockUser (script.js:3247-3267). Refuses the reserved username zcr;
otherwise toggles isLocked on the record found by username and persists.
The function performs no session check. -/
def lockUser (users : List User) (username : String) : UsersMod :=
  if username = "zcr" then
    { result := .adminProtected, users := users, wroteUsers := false }
  else
    match users.find? (·.username = username) with
    | none => { result := .notFound, users := users, wroteUsers := false }
    | some _ =>
      { result := .done,
        users := updateFirst (·.username = username)
          (fun u => { u with isLocked := !u.isLocked }) users,
        wroteUsers := true }

/-- The regular expression of validateEmail (script.js:3279-3282): one or
more non-space non-at characters, an at sign, then a domain of non-space
non-at characters containing a dot that is neither its first nor its last
character. -/
def validateEmail (email : String) : Bool :=
  let cs := email.data
  let l := cs.takeWhile (· ≠ '@')
  let r := (cs.dropWhile (· ≠ '@')).drop 1
  cs.contains '@' && !(r.contains '@') &&
  !l.isEmpty && l.all (fun c => !c.isWhitespace) &&
  !r.isEmpty && r.all (fun c => !c.isWhitespace) &&
  (r.drop 1).dropLast.contains '.'

/-- editUser (script.js:3183-3203). Finds the record by username, prompts
for a new email (`promptResult`; none models a cancelled prompt), validates
a non-empty answer, keeps the old email on an empty answer, persists and
notifies. The function performs no session check. -/
def editUser (users : List User) (username : String)
    (promptResult : Option String) : UsersMod :=
  match users.find? (·.username = username) with
  | none => { result := .notFound, users := users, wroteUsers := false }
  | some _ =>
    match promptResult with
    | none => { result := .cancelled, users := users, wroteUsers := false }
    | some newEmail =>
      if newEmail ≠ "" && !(validateEmail newEmail) then
        { result := .invalidEmail, users := users, wroteUsers := false }
      else
        { result := .done,
          users := updateFirst (·.username = username)
            (fun u => { u with email := if newEmail = "" then u.email else newEmail }) users,
          wroteUsers := true }

/-- Outcome of an operation that can touch blogUsers, blogComments and the
stored session. clearedSession records a blogUser := null write. -/
structure UsersCascadeMod where
  result : ModResult
  users : List User
  comments : List Comment
  currentUser : Option SessionObj
  wroteCollections : Bool
  clearedSession : Bool
deriving DecidableEq

/-- Whether the current session names the given username, as tested by
this.currentUser && this.currentUser.username === username. -/
def sessionNames (cur : Option SessionObj) (username : String) : Bool :=
  match cur with
  | some s => s.username = some (.jstr username)
  | none => false

/-- Whether the current session username is among the selected names, as
tested by selectedUsers.includes(this.currentUser.username). -/
def sessionNamedIn (cur : Option SessionObj) (selected : List String) : Bool :=
  match cur with
  | some s => match s.username with
    | some (.jstr x) => selected.contains x
    | _ => false
  | none => false

/-- deleteUser (script.js:3208-3242). Refuses the reserved username zcr;
requires the record to exist and the confirm() dialog to be accepted; then
removes the user, cascades to the comments authored by that username, logs
out the session if it names the deleted user, and persists both collections.
The function performs no session check beyond the self-logout. -/
def deleteUser (cur : Option SessionObj) (confirmOk : Bool) (users : List User)
    (comments : List Comment) (username : String) : UsersCascadeMod :=
  if username = "zcr" then
    { result := .adminProtected, users := users, comments := comments,
      currentUser := cur, wroteCollections := false, clearedSession := false }
  else if !(users.any (·.username = username)) then
    { result := .notFound, users := users, comments := comments,
      currentUser := cur, wroteCollections := false, clearedSession := false }
  else if !confirmOk then
    { result := .cancelled, users := users, comments := comments,
      currentUser := cur, wroteCollections := false, clearedSession := false }
  else
    let self := sessionNames cur username
    { result := .done,
      users := users.filter (fun u => u.username ≠ username),
      comments := comments.filter (fun c => c.author ≠ username),
      currentUser := if self then none else cur,
      wroteCollections := true, clearedSession := self }

/-- batchDeleteUsers (script.js:3149-3178). `selected` is the list of
checked usernames from the admin table. Requires a non-empty selection and
confirmation; then removes every selected user, cascades to their comments,
logs out a selected current session, and persists. The function contains no
check for the reserved username zcr and no session check. -/
def batchDeleteUsers (cur : Option SessionObj) (confirmOk : Bool) (users : List User)
    (comments : List Comment) (selected : List String) : UsersCascadeMod :=
  if selected.isEmpty then
    { result := .noSelection, users := users, comments := comments,
      currentUser := cur, wroteCollections := false, clearedSession := false }
  else if !confirmOk then
    { result := .cancelled, users := users, comments := comments,
      currentUser := cur, wroteCollections := false, clearedSession := false }
  else
    let self := sessionNamedIn cur selected
    { result := .done,
      users := users.filter (fun u => !(selected.contains u.username)),
      comments := comments.filter (fun c => !(selected.contains c.author)),
      currentUser := if self then none else cur,
      wroteCollections := true, clearedSession := self }

/-- batchLockUsers (script.js:3099-3119). Requires a non-empty selection and
confirmation; then sets isLocked on the first record matching each selected
username and persists. The function contains no check for the reserved
username zcr and no session check. -/
def batchLockUsers (confirmOk : Bool) (users : List User)
    (selected : List String) : UsersMod :=
  if selected.isEmpty then
    { result := .noSelection, users := users, wroteUsers := false }
  else if !confirmOk then
    { result := .cancelled, users := users, wroteUsers := false }
  else
    { result := .done,
      users := selected.foldl (fun us name =>
        updateFirst (·.username = name) (fun u => { u with isLocked := true }) us) users,
      wroteUsers := true }

/-! ## View-count synchronizer -/

/-- An article record; only id and views are touched by the view counter,
the remaining fields ride along unchanged. views is absent on legacy
records, which the source reads as article.views || 0. -/
structure Article where
  id : String
  title : String
  content : String
  views : Option Nat
deriving DecidableEq

/-- The state slice touched by registerView for one article id: the
session-scoped viewed marker (sessionStorage viewed_id), the advisory lock
record (localStorage view_lock_id), the stored article collection
(localStorage blogArticles) and the in-memory mirror (this.articles). -/
structure VState where
  viewed : Bool
  lock : Option Int
  stored : List Article
  mem : List Article
deriving DecidableEq

/-- The lock freshness test of updateViewsWithLock (script.js:1450-1455):
an existing lock record younger than one second suppresses the update. -/
def lockIsFresh (now : Int) (lock : Option Int) : Bool :=
  match lock with
  | some t => now - t < 1000
  | none => false

/-- Outcome of updateViewsWithLock: the returned article (null on
suppression or when the id is absent), the lock record afterwards, the
stored collection afterwards, and whether blogArticles was written back. -/
structure ViewUpdate where
  result : Option Article
  lock : Option Int
  stored : List Article
  wroteStored : Bool
deriving DecidableEq

/-- updateViewsWithLock (script.js:1444-1483). If an existing lock is
younger than one second, return null without touching anything. Otherwise
write a fresh lock record, re-read the article collection from storage
(`stored` is that fresh read; the in-memory mirror is not consulted),
increment the views of the article found by id by exactly one, write the
whole collection back, and return the updated article; when the id is
absent the lock is still written but the collection is not. The delayed
lock release (a one-second setTimeout) is a separate future event and is
not part of this step. -/
def updateViewsWithLock (now : Int) (lock : Option Int) (stored : List Article)
    (articleId : String) : ViewUpdate :=
  if lockIsFresh now lock then
    { result := none, lock := lock, stored := stored, wroteStored := false }
  else
    match stored.find? (·.id = articleId) with
    | none => { result := none, lock := some now, stored := stored, wroteStored := false }
    | some a =>
      let a' := { a with views := some (a.views.getD 0 + 1) }
      { result := some a', lock := some now,
        stored := updateFirst (·.id = articleId)
          (fun b => { b with views := some (b.views.getD 0 + 1) }) stored,
        wroteStored := true }

/-- The increased flag and updated article returned by
incrementViewsSafely. -/
structure ViewResult where
  increased : Bool
  updatedArticle : Option Article
deriving DecidableEq

/-- incrementViewsSafely (script.js:1412-1439), the registerView entry
point. If the session-scoped viewed marker is set, return not-increased
immediately, with no storage access. Otherwise set the marker (before the
lock attempt), run the locked update on the freshly read stored collection,
and on success replace the in-memory copy of the article. -/
def incrementViewsSafely (now : Int) (articleId : String) (st : VState) :
    ViewResult × VState :=
  if st.viewed then
    ({ increased := false, updatedArticle := none }, st)
  else
    let u := updateViewsWithLock now st.lock st.stored articleId
    match u.result with
    | some a =>
      ({ increased := true, updatedArticle := some a },
       { viewed := true, lock := u.lock, stored := u.stored,
         mem := updateFirst (·.id = articleId) (fun _ => a) st.mem })
    | none =>
      ({ increased := false, updatedArticle := none },
       { viewed := true, lock := u.lock, stored := u.stored, mem := st.mem })

/-- Repeated registerView calls for the same article within one tab session,
at the given sequence of clock instants. -/
def iterViews (articleId : String) (times : List Int) (st : VState) : VState :=
  times.foldl (fun s n => (incrementViewsSafely n articleId s).2) st

/-- The views count an article id currently has in a collection, read the
way the source reads it (views || 0). -/
def storedViews (articleId : String) (l : List Article) : Option Nat :=
  (l.find? (·.id = articleId)).map (fun a => a.views.getD 0)

/-! ## Persistent store adapter: the blogUsers read -/

/-- An element of the raw blogUsers array as the repair code inspects it:
either not a truthy object at all, or an object whose username and password
fields may each be absent or empty (falsy). -/
inductive RawEntry where
  | junk
  | obj (username : Option String) (password : Option String)
deriving DecidableEq

/-- Truthiness of an optional string field. -/
def truthyStr : Option String → Bool
  | none => false
  | some s => s ≠ ""

/-- The required-fields filter of safeGetLocalStorage (script.js:271-276):
the entry is a truthy object with truthy username and password. -/
def entryValid : RawEntry → Bool
  | .junk => false
  | .obj u p => truthyStr u && truthyStr p

/-- Whether an entry carries the reserved admin username. -/
def entryIsZcr : RawEntry → Bool
  | .junk => false
  | .obj u _ => u = some "zcr"

/-- What localStorage.getItem followed by JSON.parse yielded for blogUsers:
the key was absent, the payload failed to parse as an array (a thrown parse
or type error inside the guarded block, or an explicitly detected non-array,
all of which resolve the default), or an array of entries. -/
inductive UsersRead where
  | missing
  | corrupt
  | arr (l : List RawEntry)
deriving DecidableEq

/-- Outcome of the blogUsers read: the value resolved to the caller and the
localStorage.setItem write performed during repair, if any. -/
structure UsersGetOutcome where
  result : List RawEntry
  written : Option (List RawEntry)
deriving DecidableEq

/-- safeGetLocalStorage for the blogUsers key with default []
(script.js:216-302). On a missing key a non-empty in-memory mirror is
written back and returned. On a parsed array: if the array is empty while
the mirror is non-empty, or the array lacks the username zcr while the
non-empty mirror contains it, the mirror is written back and returned;
otherwise entries without truthy username and password are filtered out,
and when that removed anything the cleaned array is written back and
returned; else the parsed array is returned untouched. -/
def safeGetUsers (stored : UsersRead) (mem : List RawEntry) : UsersGetOutcome :=
  match stored with
  | .missing =>
    if mem.length > 0 then { result := mem, written := some mem }
    else { result := [], written := none }
  | .corrupt => { result := [], written := none }
  | .arr parsed =>
    if parsed.length = 0 && mem.length > 0 then
      { result := mem, written := some mem }
    else if !(parsed.any entryIsZcr) && mem.length > 0 && mem.any entryIsZcr then
      { result := mem, written := some mem }
    else
      let valid := parsed.filter entryValid
      if valid.length ≠ parsed.length then { result := valid, written := some valid }
      else { result := parsed, written := none }

/-! ## Helper lemmas -/

theorem updateFirst_congr (p : α → Bool) (f g : α → α) (l : List α)
    (h : ∀ a, f a = g a) : updateFirst p f l = updateFirst p g l := by
  induction l with
  | nil => rfl
  | cons x xs ih =>
    simp only [updateFirst, ih, h x]

theorem find?_updateFirst (p : α → Bool) (f : α → α) (l : List α) (u : α)
    (hf : ∀ a, p a = true → p (f a) = true)
    (h : l.find? p = some u) :
    (updateFirst p f l).find? p = some (f u) := by
  induction l with
  | nil => simp at h
  | cons x xs ih =>
    by_cases hx : p x = true
    · rw [List.find?_cons_of_pos _ hx] at h
      injection h with h
      subst h
      simp [updateFirst, hx, List.find?_cons_of_pos _ (hf x hx)]
    · have hx' : ¬ p x := by simpa using hx
      rw [List.find?_cons_of_neg _ hx'] at h
      simp [updateFirst, hx', ih h, List.find?_cons_of_neg _ hx']

theorem any_of_find?_eq_some (p : α → Bool) (l : List α) (u : α)
    (h : l.find? p = some u) : l.any p = true :=
  List.any_eq_true.mpr ⟨u, List.mem_of_find?_eq_some h, List.find?_some h⟩

theorem filter_eq_self_of_length_eq (p : α → Bool) (l : List α)
    (h : (l.filter p).length = l.length) : l.filter p = l := by
  induction l with
  | nil => rfl
  | cons x xs ih =>
    by_cases hx : p x
    · simp only [List.filter_cons_of_pos hx] at h ⊢
      simp only [List.length_cons, Nat.succ.injEq] at h
      rw [ih h]
    · exfalso
      simp only [List.filter_cons_of_neg hx] at h
      have := List.length_filter_le p xs
      simp only [List.length_cons] at h
      omega

/-! ## Demonstration fixtures -/

/-- A plain registered user with digest of the password secret1. -/
def demoUser : User :=
  { id := "u1", username := "alice", password := hashPassword "secret1",
    isAdmin := false, email := "a@b.c", createdAt := "0",
    lastLogin := none, loginAttempts := some 0, lockedUntil := none, isLocked := false }

/-! ## Claims -/

/-- C1: the claim says that for valid credentials, login followed
immediately by validateSession on the session it creates and persists
returns true, with sessionExpiry = loginTime + 24h. The code refutes the
first half: handleLoginScreen stores loginTime as an ISO string
(new Date().toISOString(), script.js:2037) while validateUserObject demands
a number for loginTime (script.js:1005), so the freshly created and
persisted session always fails validation; on the next startup
checkLoginStatus therefore discards every login-created session. The second
half holds at the level of instants: sessionExpiry is the numeric login
instant plus 24 hours while loginTime encodes that same instant. This
theorem evaluates the code at a concrete valid credential pair and also
shows the failure is universal over login-created sessions. -/
theorem C1_login_session_fails_validation :
    ((handleLoginScreen 1000000 none [demoUser] "alice" "secret1").result
      = .success false)
    ∧ ((handleLoginScreen 1000000 none [demoUser] "alice" "secret1").wroteSession
      = some (some (mkLoginSession 1000000 demoUser)))
    ∧ ((mkLoginSession 1000000 demoUser).loginTime = some (.jstr (toISOString 1000000)))
    ∧ ((mkLoginSession 1000000 demoUser).sessionExpiry
      = some (.jnum (1000000 + 24 * 60 * 60 * 1000)))
    ∧ (validateUserObject 1000000
        (handleLoginScreen 1000000 none [demoUser] "alice" "secret1").currentUser = false)
    ∧ (∀ (tLogin tCheck : Int) (u : User),
        validateUserObject tCheck (some (mkLoginSession tLogin u)) = false) := by
  refine ⟨by decide, by decide, by decide, by decide, by decide, ?_⟩
  intro tLogin tCheck u
  simp [validateUserObject, mkLoginSession]

/-- C2: the claim says every delete or lock operation is a no-op on the
reserved admin username zcr. The singular operations deleteUser
(script.js:3209) and lockUser (script.js:3248) do guard zcr, but
batchDeleteUsers (script.js:3149-3178) and batchLockUsers
(script.js:3099-3119) contain no such guard: selecting zcr in the admin
table deletes the reserved account, respectively sets its isLocked flag.
This contradicts the explicit in-code refusal messages of the singular
operations, so the batch paths are coded wrongly. The theorem evaluates all
four operations on a collection holding the admin record. -/
theorem C2_batch_operations_hit_admin :
    ((deleteUser none true [adminAccount 0, demoUser] [] "zcr").result = .adminProtected)
    ∧ ((deleteUser none true [adminAccount 0, demoUser] [] "zcr").users
      = [adminAccount 0, demoUser])
    ∧ ((lockUser [adminAccount 0, demoUser] "zcr").result = .adminProtected)
    ∧ ((lockUser [adminAccount 0, demoUser] "zcr").users = [adminAccount 0, demoUser])
    ∧ ((batchDeleteUsers none true [adminAccount 0, demoUser] [] ["zcr"]).users.any
        (·.username = "zcr") = false)
    ∧ ((batchDeleteUsers none true [adminAccount 0, demoUser] [] ["zcr"]).wroteCollections
      = true)
    ∧ ((batchLockUsers true [adminAccount 0, demoUser] ["zcr"]).users.find?
        (·.username = "zcr") = some { adminAccount 0 with isLocked := true }) := by
  decide

/-- C3 counterexample: the claim says every moderation operation, including
lockUser, fails with a permission error and mutates nothing when the current
session is absent or not an admin. lockUser (script.js:3247-3267) takes no
notice of the session at all: invoked with no session present, it still
flips the isLocked flag of the target user and persists the collection. -/
theorem C3_counterexample_lockUser_ungated :
    ((lockUser [demoUser] "alice").result = .done)
    ∧ ((lockUser [demoUser] "alice").users = [{ demoUser with isLocked := true }])
    ∧ ((lockUser [demoUser] "alice").wroteUsers = true) := by
  decide

/-- C3 amended: only the comment moderation operations (deleteComment,
pinComment) are gated on session.isAdmin, failing with a permission error
and no mutation for an absent or non-admin session; the user-management
operations (lockUser, deleteUser, editUser) perform no session check at the
operation level and mutate their target regardless of the session state
(they are only shielded by the admin-only user interface). -/
theorem C3_admin_gate_only_comment_ops :
    (∀ (cur : Option SessionObj) (confirmOk : Bool) (comments : List Comment) (cid : String),
      sessionIsAdmin cur = false →
      deleteComment cur confirmOk comments cid
        = { result := .permissionDenied, comments := comments, wroteComments := false })
    ∧ (∀ (cur : Option SessionObj) (comments : List Comment) (cid : String),
      sessionIsAdmin cur = false →
      pinComment cur comments cid
        = { result := .permissionDenied, comments := comments, wroteComments := false })
    ∧ (∀ (users : List User) (uname : String) (u : User),
      uname ≠ "zcr" → users.find? (·.username = uname) = some u →
      (lockUser users uname).wroteUsers = true
      ∧ (lockUser users uname).users
          = updateFirst (·.username = uname) (fun v => { v with isLocked := !v.isLocked }) users)
    ∧ (∀ (cur : Option SessionObj) (users : List User) (comments : List Comment) (uname : String),
      uname ≠ "zcr" → users.any (·.username = uname) = true →
      (deleteUser cur true users comments uname).wroteCollections = true
      ∧ (deleteUser cur true users comments uname).users
          = users.filter (fun v => v.username ≠ uname)
      ∧ (deleteUser cur true users comments uname).comments
          = comments.filter (fun c => c.author ≠ uname))
    ∧ (∀ (users : List User) (uname e : String) (u : User),
      users.find? (·.username = uname) = some u → e ≠ "" → validateEmail e = true →
      (editUser users uname (some e)).wroteUsers = true
      ∧ (editUser users uname (some e)).users
          = updateFirst (·.username = uname) (fun v => { v with email := e }) users) := by
  refine ⟨?_, ?_, ?_, ?_, ?_⟩
  · intro cur confirmOk comments cid h
    simp [deleteComment, h]
  · intro cur comments cid h
    simp [pinComment, h]
  · intro users uname u hz hf
    simp [lockUser, hz, hf]
  · intro cur users comments uname hz hany
    simp [deleteUser, hz, hany]
  · intro users uname e u hf he hv
    simp [editUser, hf, he, hv]

/-- C3 witness: the amended theorem applied at concrete inputs. -/
theorem C3_admin_gate_only_comment_ops_witness :
    (deleteComment none true [] "c9"
      = { result := .permissionDenied, comments := [], wroteComments := false })
    ∧ ((lockUser [demoUser] "alice").wroteUsers = true) := by
  have h := C3_admin_gate_only_comment_ops
  exact ⟨h.1 none true [] "c9" (by decide),
         (h.2.2.1 [demoUser] "alice" demoUser (by decide) (by decide)).1⟩

/-- A comment body whose trimmed length is exactly 1000 but whose raw length
is 1001: a leading space followed by one thousand letters. -/
def paddedContent : String := " " ++ String.mk (List.replicate 1000 'x')

/-- C8 counterexample: the claim says submitComment accepts content whose
trimmed length is exactly 1000. The length checks at script.js:2642-2650 run
on the raw, untrimmed content (trimming happens only when the accepted
comment is built, script.js:2656), so this content of trimmed length 1000
and raw length 1001 is rejected and nothing is appended. -/
theorem C8_counterexample_trimmed_length_rejected :
    ((jsTrim paddedContent).length = 1000)
    ∧ ((submitComment 0 "c1" none [] "a1" "Al" paddedContent).ok = false)
    ∧ ((submitComment 0 "c1" none [] "a1" "Al" paddedContent).comments = []) := by
  refine ⟨?_, ?_, ?_⟩ <;> decide

/-- C8 amended: the [2,1000] boundary of submitComment applies to the raw
(untrimmed) length of the content. For non-empty articleId and author,
content of raw length exactly 2 up to exactly 1000 is accepted, appending a
comment whose stored author and content are trimmed and persisting the
collection; content of raw length below 2 or above 1000 is rejected with an
error notification and the comment collection is not touched. -/
theorem C8_submitComment_raw_length_boundary
    (now : Int) (newId : String) (cur : Option SessionObj) (comments : List Comment)
    (articleId author content : String)
    (ha : articleId ≠ "") (hb : author ≠ "") :
    (2 ≤ content.length → content.length ≤ 1000 →
      (submitComment now newId cur comments articleId author content).ok = true
      ∧ (submitComment now newId cur comments articleId author content).comments
          = comments ++ [{ id := newId, articleId := articleId, author := jsTrim author,
                           content := jsTrim content, createdAt := now,
                           isAdmin := sessionIsAdmin cur, isPinned := false }]
      ∧ (submitComment now newId cur comments articleId author content).wroteComments = true)
    ∧ (content.length < 2 ∨ 1000 < content.length →
      (submitComment now newId cur comments articleId author content).ok = false
      ∧ (submitComment now newId cur comments articleId author content).comments = comments
      ∧ (submitComment now newId cur comments articleId author content).wroteComments = false
      ∧ (submitComment now newId cur comments articleId author content).notif.kind
          = "error") := by
  constructor
  · intro h2 h1000
    have hc : content ≠ "" := by
      intro h
      rw [h] at h2
      exact absurd h2 (by decide)
    have hlt : ¬ content.length < 2 := by omega
    have hgt : ¬ content.length > 1000 := by omega
    simp [submitComment, ha, hb, hc, hlt, hgt]
  · intro h
    by_cases hc : content = ""
    · simp [submitComment, hc]
    · rcases h with h | h
      · simp [submitComment, ha, hb, hc, h]
      · have hlt : ¬ content.length < 2 := by omega
        simp [submitComment, ha, hb, hc, hlt, h]

/-- C8 witness: the amended theorem applied at concrete inputs, on both
sides of the lower boundary. -/
theorem C8_submitComment_raw_length_boundary_witness :
    ((submitComment 0 "c1" none [] "a1" "Al" "Hi").ok = true)
    ∧ ((submitComment 0 "c1" none [] "a1" "Al" "H").ok = false) := by
  have h1 := C8_submitComment_raw_length_boundary 0 "c1" none [] "a1" "Al" "Hi"
    (by decide) (by decide)
  have h2 := C8_submitComment_raw_length_boundary 0 "c1" none [] "a1" "Al" "H"
    (by decide) (by decide)
  exact ⟨(h1.1 (by decide) (by decide)).1, (h2.2 (Or.inl (by decide))).1⟩

/-- C4: the locked view-count update. A lock record younger than one second
makes the call return null with nothing touched (no write, lock and stored
collection unchanged). On acquisition with the target id present, the views
field of the target is incremented by exactly one, the whole collection is
written back, and the updated article is returned. The third conjunct
states the fresh-read discipline at the registerView level: the outcome and
the written collection are computed from the stored collection alone,
independent of the in-memory mirror. -/
theorem C4_updateViewsWithLock_locked_increment
    (now : Int) (lock : Option Int) (stored : List Article) (articleId : String) :
    (∀ t, lock = some t → now - t < 1000 →
      updateViewsWithLock now lock stored articleId
        = { result := none, lock := lock, stored := stored, wroteStored := false })
    ∧ (∀ a, lockIsFresh now lock = false → stored.find? (·.id = articleId) = some a →
      updateViewsWithLock now lock stored articleId
        = { result := some { a with views := some (a.views.getD 0 + 1) },
            lock := some now,
            stored := updateFirst (·.id = articleId)
              (fun b => { b with views := some (b.views.getD 0 + 1) }) stored,
            wroteStored := true }
      ∧ storedViews articleId (updateViewsWithLock now lock stored articleId).stored
          = some (a.views.getD 0 + 1))
    ∧ (∀ (mem₁ mem₂ : List Article) (viewed : Bool),
      (incrementViewsSafely now articleId
          { viewed := viewed, lock := lock, stored := stored, mem := mem₁ }).1
        = (incrementViewsSafely now articleId
          { viewed := viewed, lock := lock, stored := stored, mem := mem₂ }).1
      ∧ (incrementViewsSafely now articleId
          { viewed := viewed, lock := lock, stored := stored, mem := mem₁ }).2.stored
        = (incrementViewsSafely now articleId
          { viewed := viewed, lock := lock, stored := stored, mem := mem₂ }).2.stored) := by
  refine ⟨?_, ?_, ?_⟩
  · intro t hl hyoung
    subst hl
    simp [updateViewsWithLock, lockIsFresh, hyoung]
  · intro a hfresh hfind
    have hupd : updateViewsWithLock now lock stored articleId
        = { result := some { a with views := some (a.views.getD 0 + 1) },
            lock := some now,
            stored := updateFirst (·.id = articleId)
              (fun b => { b with views := some (b.views.getD 0 + 1) }) stored,
            wroteStored := true } := by
      simp [updateViewsWithLock, hfresh, hfind]
    refine ⟨hupd, ?_⟩
    rw [hupd]
    have hfind' := find?_updateFirst (·.id = articleId)
      (fun b => { b with views := some (b.views.getD 0 + 1) }) stored a
      (fun b hb => by simpa using hb) hfind
    simp [storedViews, hfind']
  · intro mem₁ mem₂ viewed
    cases viewed with
    | true => simp [incrementViewsSafely]
    | false =>
      simp only [incrementViewsSafely]
      cases h : (updateViewsWithLock now lock stored articleId).result <;> simp

/-- C4 witness: the theorem applied at a concrete state, on both the
too-frequent path and the increment path. -/
theorem C4_updateViewsWithLock_locked_increment_witness :
    (updateViewsWithLock 1500 (some 1000) [⟨"a1", "t", "c", some 7⟩] "a1"
      = { result := none, lock := some 1000, stored := [⟨"a1", "t", "c", some 7⟩],
          wroteStored := false })
    ∧ (updateViewsWithLock 3000 (some 1000) [⟨"a1", "t", "c", some 7⟩] "a1"
      = { result := some ⟨"a1", "t", "c", some 8⟩, lock := some 3000,
          stored := [⟨"a1", "t", "c", some 8⟩], wroteStored := true }) := by
  have h1 := (C4_updateViewsWithLock_locked_increment 1500 (some 1000)
    [⟨"a1", "t", "c", some 7⟩] "a1").1 1000 rfl (by decide)
  have h2 := ((C4_updateViewsWithLock_locked_increment 3000 (some 1000)
    [⟨"a1", "t", "c", some 7⟩] "a1").2.1 ⟨"a1", "t", "c", some 7⟩ (by decide) (by decide)).1
  exact ⟨h1, by rw [h2]; decide⟩

/-- C5: calling registerView twice for the same article in the same tab
session increments the stored views by exactly one, not two. Starting from
a state whose session marker is clear, whose lock record does not suppress
the first call, and whose stored collection contains the article, the first
call increments and the second call finds the marker set, returns
not-increased, and leaves the entire state (hence storage) untouched. -/
theorem C5_registerView_twice_increments_once
    (now₁ now₂ : Int) (st : VState) (articleId : String) (a : Article)
    (hv : st.viewed = false)
    (hl : lockIsFresh now₁ st.lock = false)
    (ha : st.stored.find? (·.id = articleId) = some a) :
    ((incrementViewsSafely now₁ articleId st).1.increased = true)
    ∧ ((incrementViewsSafely now₂ articleId
        (incrementViewsSafely now₁ articleId st).2).1
      = { increased := false, updatedArticle := none })
    ∧ ((incrementViewsSafely now₂ articleId
        (incrementViewsSafely now₁ articleId st).2).2
      = (incrementViewsSafely now₁ articleId st).2)
    ∧ (storedViews articleId
        (incrementViewsSafely now₂ articleId
          (incrementViewsSafely now₁ articleId st).2).2.stored
      = some (a.views.getD 0 + 1)) := by
  have hupd : updateViewsWithLock now₁ st.lock st.stored articleId
      = { result := some { a with views := some (a.views.getD 0 + 1) },
          lock := some now₁,
          stored := updateFirst (·.id = articleId)
            (fun b => { b with views := some (b.views.getD 0 + 1) }) st.stored,
          wroteStored := true } := by
    simp [updateViewsWithLock, hl, ha]
  have h1 : incrementViewsSafely now₁ articleId st
      = ({ increased := true, updatedArticle := some { a with views := some (a.views.getD 0 + 1) } },
         { viewed := true, lock := some now₁,
           stored := updateFirst (·.id = articleId)
             (fun b => { b with views := some (b.views.getD 0 + 1) }) st.stored,
           mem := updateFirst (·.id = articleId)
             (fun _ => { a with views := some (a.views.getD 0 + 1) }) st.mem }) := by
    simp [incrementViewsSafely, hv, hupd]
  have h2 : incrementViewsSafely now₂ articleId (incrementViewsSafely now₁ articleId st).2
      = ({ increased := false, updatedArticle := none },
         (incrementViewsSafely now₁ articleId st).2) := by
    rw [h1]
    simp [incrementViewsSafely]
  have hfind' := find?_updateFirst (·.id = articleId)
    (fun b => { b with views := some (b.views.getD 0 + 1) }) st.stored a
    (fun b hb => by simpa using hb) ha
  refine ⟨by rw [h1], by rw [h2], by rw [h2], ?_⟩
  rw [h2, h1]
  simp [storedViews, hfind']

/-- C5 witness: the theorem applied at a concrete one-article state. -/
theorem C5_registerView_twice_increments_once_witness :
    storedViews "a1"
      (incrementViewsSafely 2000 "a1"
        (incrementViewsSafely 1000 "a1"
          ⟨false, none, [⟨"a1", "t", "c", some 7⟩], [⟨"a1", "t", "c", some 7⟩]⟩).2).2.stored
    = some 8 := by
  exact (C5_registerView_twice_increments_once 1000 2000
    ⟨false, none, [⟨"a1", "t", "c", some 7⟩], [⟨"a1", "t", "c", some 7⟩]⟩ "a1"
    ⟨"a1", "t", "c", some 7⟩ rfl (by decide) (by decide)).2.2.2

/-- C9: incrementViewsSafely sets the session marker before the lock
attempt, so a suppressed first call permanently loses the view for the tab
session. If the first call for an article is suppressed (live lock record,
or the article id absent from the stored collection), it returns
not-increased and leaves the stored collection unchanged, yet the marker is
set; once the marker is set, every call returns not-increased and leaves
the whole state unchanged, so any sequence of subsequent calls never
increments the stored views. -/
theorem C9_suppressed_first_call_loses_view
    (now : Int) (st : VState) (articleId : String)
    (hv : st.viewed = false)
    (hsup : lockIsFresh now st.lock = true ∨ st.stored.find? (·.id = articleId) = none) :
    ((incrementViewsSafely now articleId st).1
      = { increased := false, updatedArticle := none })
    ∧ ((incrementViewsSafely now articleId st).2.viewed = true)
    ∧ ((incrementViewsSafely now articleId st).2.stored = st.stored)
    ∧ (∀ (st' : VState), st'.viewed = true → ∀ n,
        incrementViewsSafely n articleId st'
          = ({ increased := false, updatedArticle := none }, st'))
    ∧ (∀ times, iterViews articleId times (incrementViewsSafely now articleId st).2
        = (incrementViewsSafely now articleId st).2) := by
  have hmarked : ∀ (st' : VState), st'.viewed = true → ∀ n,
      incrementViewsSafely n articleId st'
        = ({ increased := false, updatedArticle := none }, st') := by
    intro st' h n
    simp [incrementViewsSafely, h]
  have hnull : (updateViewsWithLock now st.lock st.stored articleId).result = none
      ∧ (updateViewsWithLock now st.lock st.stored articleId).stored = st.stored := by
    rcases hsup with h | h
    · simp [updateViewsWithLock, h]
    · rcases hf : lockIsFresh now st.lock with _ | _ <;>
        simp [updateViewsWithLock, hf, h]
  have hcall : incrementViewsSafely now articleId st
      = ({ increased := false, updatedArticle := none },
         { viewed := true, lock := (updateViewsWithLock now st.lock st.stored articleId).lock,
           stored := (updateViewsWithLock now st.lock st.stored articleId).stored,
           mem := st.mem }) := by
    simp only [incrementViewsSafely, hv, Bool.false_eq_true, if_false]
    rw [hnull.1]
  have hviewed : (incrementViewsSafely now articleId st).2.viewed = true := by
    rw [hcall]
  refine ⟨by rw [hcall], hviewed, by rw [hcall]; exact hnull.2, hmarked, ?_⟩
  intro times
  induction times with
  | nil => rfl
  | cons t ts ih =>
    show iterViews articleId ts
        (incrementViewsSafely t articleId (incrementViewsSafely now articleId st).2).2
      = (incrementViewsSafely now articleId st).2
    rw [hmarked _ hviewed t]
    exact ih

/-- C9 witness: the theorem applied at a concrete state with a live lock
record; the view is lost for the whole session. -/
theorem C9_suppressed_first_call_loses_view_witness :
    (iterViews "a1" [2000, 3000, 4000]
      (incrementViewsSafely 1500 "a1"
        ⟨false, some 1000, [⟨"a1", "t", "c", some 7⟩], [⟨"a1", "t", "c", some 7⟩]⟩).2).stored
    = [⟨"a1", "t", "c", some 7⟩] := by
  have h := C9_suppressed_first_call_loses_view 1500
    ⟨false, some 1000, [⟨"a1", "t", "c", some 7⟩], [⟨"a1", "t", "c", some 7⟩]⟩ "a1"
    rfl (Or.inl (by decide))
  rw [h.2.2.2.2 [2000, 3000, 4000], h.2.2.1]

/-! ## Reduction lemmas for handleLoginScreen -/

theorem handleLoginScreen_reduce
    (now : Int) (cur : Option SessionObj) (users : List User) (uname pw : String) (u : User)
    (hn : uname ≠ "") (hp : 6 ≤ pw.length)
    (hfind : users.find? (·.username = uname) = some u) :
    handleLoginScreen now cur users uname pw
      = (match u.lockedUntil with
        | some t =>
          if now < t then
            { result := .accountLocked ((t - now + 59999) / 60000), users := users,
              wroteUsers := false, currentUser := cur, wroteSession := none,
              notif := ⟨"error", 0, false⟩ }
          else loginPasswordPhase now cur users u pw
        | none => loginPasswordPhase now cur users u pw) := by
  have hpw0 : pw ≠ "" := by
    intro h
    rw [h] at hp
    exact absurd hp (by decide)
  have hlen : ¬ pw.length < 6 := by omega
  have hany : users.any (·.username = uname) = true := any_of_find?_eq_some _ _ _ hfind
  have hguard : (uname = "zcr" && !(users.any (·.username = "zcr"))) = false := by
    by_cases hz : uname = "zcr"
    · subst hz
      rw [hany]
      simp
    · simp [hz]
  simp only [handleLoginScreen, hn, hpw0, hlen, hguard, hfind, decide_eq_true_eq,
    Bool.or_eq_true, decide_eq_false_iff_not, Bool.false_eq_true, if_false, ite_false]
  simp [hn, hpw0, hlen]

theorem username_of_find? (users : List User) (uname : String) (u : User)
    (hfind : users.find? (·.username = uname) = some u) : u.username = uname := by
  have := List.find?_some hfind
  simpa using this

theorem loginPasswordPhase_success
    (now : Int) (cur : Option SessionObj) (users : List User) (u : User) (pw : String)
    (hok : u.password = hashPassword pw) :
    loginPasswordPhase now cur users u pw
      = { result := .success u.isAdmin,
          users := updateFirst (·.username = u.username) (loginSuccessUpdate now) users,
          wroteUsers := true, currentUser := some (mkLoginSession now u),
          wroteSession := some (some (mkLoginSession now u)),
          notif := ⟨"success", 2500, true⟩ } := by
  simp [loginPasswordPhase, hok]

theorem loginPasswordPhase_mismatch_low
    (now : Int) (cur : Option SessionObj) (users : List User) (u : User) (pw : String)
    (hmm : u.password ≠ hashPassword pw)
    (hlow : u.loginAttempts.getD 0 + 1 < 5) :
    loginPasswordPhase now cur users u pw
      = { result := .wrongPassword (5 - (u.loginAttempts.getD 0 + 1)),
          users := updateFirst (·.username = u.username) (loginMismatchUpdate now) users,
          wroteUsers := true, currentUser := cur, wroteSession := none,
          notif := ⟨"error", 4000, true⟩ } := by
  have h5 : ¬ (5 ≤ u.loginAttempts.getD 0 + 1) := by omega
  simp [loginPasswordPhase, hmm, h5]

theorem loginPasswordPhase_mismatch_lockout
    (now : Int) (cur : Option SessionObj) (users : List User) (u : User) (pw : String)
    (hmm : u.password ≠ hashPassword pw)
    (hhigh : 5 ≤ u.loginAttempts.getD 0 + 1) :
    loginPasswordPhase now cur users u pw
      = { result := .lockedOut,
          users := updateFirst (·.username = u.username) (loginMismatchUpdate now) users,
          wroteUsers := true, currentUser := cur, wroteSession := none,
          notif := ⟨"error", 0, false⟩ } := by
  simp [loginPasswordPhase, hmm, hhigh]

theorem mismatchUpdate_preserves_username (now : Int) (uname : String) :
    ∀ b : User, decide (b.username = uname) = true →
      decide ((loginMismatchUpdate now b).username = uname) = true := by
  intro b hb
  simpa [loginMismatchUpdate] using hb

theorem successUpdate_preserves_username (now : Int) (uname : String) :
    ∀ b : User, decide (b.username = uname) = true →
      decide ((loginSuccessUpdate now b).username = uname) = true := by
  intro b hb
  simpa [loginSuccessUpdate] using hb

/-- C6: the login lockout policy. With the target record found (after the
re-synchronisation from storage) and well-formed inputs: (a) a password
mismatch below the threshold increments loginAttempts, persists the user
collection, reports the remaining attempt count, and leaves the session
state untouched; (b) a mismatch whose incremented count reaches 5 also sets
lockedUntil to now + 30 minutes and emits the non-auto-dismissing lockout
notice (duration 0, autoClose false); (c) while lockedUntil is in the
future every attempt, whatever the password, fails with the account-locked
notice carrying the remaining minutes (ceiling of the millisecond gap over
60000) and nothing is persisted; (d) a successful login once lockedUntil
has elapsed resets loginAttempts to 0 and clears lockedUntil. -/
theorem C6_login_lockout_policy
    (now : Int) (cur : Option SessionObj) (users : List User) (uname pw : String) (u : User)
    (hn : uname ≠ "") (hp : 6 ≤ pw.length)
    (hfind : users.find? (·.username = uname) = some u) :
    (u.lockedUntil = none → u.password ≠ hashPassword pw →
     u.loginAttempts.getD 0 + 1 < 5 →
      (handleLoginScreen now cur users uname pw).result
        = .wrongPassword (5 - (u.loginAttempts.getD 0 + 1))
      ∧ (handleLoginScreen now cur users uname pw).users.find? (·.username = uname)
          = some { u with loginAttempts := some (u.loginAttempts.getD 0 + 1) }
      ∧ (handleLoginScreen now cur users uname pw).wroteUsers = true
      ∧ (handleLoginScreen now cur users uname pw).currentUser = cur
      ∧ (handleLoginScreen now cur users uname pw).wroteSession = none
      ∧ (handleLoginScreen now cur users uname pw).notif = ⟨"error", 4000, true⟩)
    ∧ (u.lockedUntil = none → u.password ≠ hashPassword pw →
       5 ≤ u.loginAttempts.getD 0 + 1 →
      (handleLoginScreen now cur users uname pw).result = .lockedOut
      ∧ (handleLoginScreen now cur users uname pw).users.find? (·.username = uname)
          = some { u with loginAttempts := some (u.loginAttempts.getD 0 + 1),
                          lockedUntil := some (now + 30 * 60 * 1000) }
      ∧ (handleLoginScreen now cur users uname pw).wroteUsers = true
      ∧ (handleLoginScreen now cur users uname pw).currentUser = cur
      ∧ (handleLoginScreen now cur users uname pw).notif = ⟨"error", 0, false⟩)
    ∧ (∀ t, u.lockedUntil = some t → now < t →
      handleLoginScreen now cur users uname pw
        = { result := .accountLocked ((t - now + 59999) / 60000), users := users,
            wroteUsers := false, currentUser := cur, wroteSession := none,
            notif := ⟨"error", 0, false⟩ })
    ∧ (u.password = hashPassword pw → (∀ t, u.lockedUntil = some t → t ≤ now) →
      (handleLoginScreen now cur users uname pw).result = .success u.isAdmin
      ∧ (handleLoginScreen now cur users uname pw).users.find? (·.username = uname)
          = some { u with loginAttempts := some 0, lockedUntil := none,
                          lastLogin := some now }
      ∧ (handleLoginScreen now cur users uname pw).currentUser
          = some (mkLoginSession now u)
      ∧ (handleLoginScreen now cur users uname pw).wroteSession
          = some (some (mkLoginSession now u))
      ∧ (handleLoginScreen now cur users uname pw).wroteUsers = true) := by
  have hred := handleLoginScreen_reduce now cur users uname pw u hn hp hfind
  have huname := username_of_find? users uname u hfind
  refine ⟨?_, ?_, ?_, ?_⟩
  · intro hlk hmm hlow
    have hphase := loginPasswordPhase_mismatch_low now cur users u pw hmm hlow
    rw [hred]
    simp only [hlk]
    rw [hphase]
    refine ⟨rfl, ?_, rfl, rfl, rfl, rfl⟩
    rw [huname]
    rw [find?_updateFirst _ _ _ u (mismatchUpdate_preserves_username now uname) hfind]
    have h5 : ¬ (5 ≤ u.loginAttempts.getD 0 + 1) := by omega
    simp [loginMismatchUpdate, h5, hlk, huname]
  · intro hlk hmm hhigh
    have hphase := loginPasswordPhase_mismatch_lockout now cur users u pw hmm hhigh
    rw [hred]
    simp only [hlk]
    rw [hphase]
    refine ⟨rfl, ?_, rfl, rfl, rfl⟩
    rw [huname]
    rw [find?_updateFirst _ _ _ u (mismatchUpdate_preserves_username now uname) hfind]
    simp [loginMismatchUpdate, hhigh, huname]
  · intro t hlk hlt
    rw [hred]
    simp only [hlk]
    rw [if_pos hlt]
  · intro hok htime
    have hphase := loginPasswordPhase_success now cur users u pw hok
    have hmainred : handleLoginScreen now cur users uname pw
        = loginPasswordPhase now cur users u pw := by
      rw [hred]
      cases hlk : u.lockedUntil with
      | none => rfl
      | some t =>
        have := htime t hlk
        simp only []
        rw [if_neg (by omega)]
    rw [hmainred, hphase]
    refine ⟨rfl, ?_, rfl, rfl, rfl⟩
    rw [huname]
    rw [find?_updateFirst _ _ _ u (successUpdate_preserves_username now uname) hfind]
    simp [loginSuccessUpdate, huname]

/-- C6 witness: the theorem applied to a concrete user on the locked path:
a locked record rejects the correct password with the remaining minutes. -/
theorem C6_login_lockout_policy_witness :
    handleLoginScreen 1000 none
      [{ demoUser with lockedUntil := some 600000, loginAttempts := some 5 }]
      "alice" "secret1"
      = { result := .accountLocked 10,
          users := [{ demoUser with lockedUntil := some 600000, loginAttempts := some 5 }],
          wroteUsers := false, currentUser := none, wroteSession := none,
          notif := ⟨"error", 0, false⟩ } := by
  have h := (C6_login_lockout_policy 1000 none
    [{ demoUser with lockedUntil := some 600000, loginAttempts := some 5 }]
    "alice" "secret1" { demoUser with lockedUntil := some 600000, loginAttempts := some 5 }
    (by decide) (by decide) (by decide)).2.2.1 600000 rfl (by decide)
  rw [h]
  decide

/-- C10: the isLocked flag set by lockUser and batchLockUsers is never
consulted by handleLoginScreen. For a record whose isLocked is true but
whose lockedUntil is null or in the past, login with the correct password
succeeds and creates a session: only lockedUntil blocks authentication. -/
theorem C10_isLocked_not_consulted_at_login
    (now : Int) (cur : Option SessionObj) (users : List User) (uname pw : String) (u : User)
    (hn : uname ≠ "") (hp : 6 ≤ pw.length)
    (hfind : users.find? (·.username = uname) = some u)
    (hlocked : u.isLocked = true)
    (htime : ∀ t, u.lockedUntil = some t → t ≤ now)
    (hok : u.password = hashPassword pw) :
    (handleLoginScreen now cur users uname pw).result = .success u.isAdmin
    ∧ (handleLoginScreen now cur users uname pw).currentUser
        = some (mkLoginSession now u)
    ∧ (handleLoginScreen now cur users uname pw).wroteSession
        = some (some (mkLoginSession now u))
    ∧ (handleLoginScreen now cur users uname pw).users.find? (·.username = uname)
        = some { u with loginAttempts := some 0, lockedUntil := none,
                        lastLogin := some now } := by
  have hred := handleLoginScreen_reduce now cur users uname pw u hn hp hfind
  have huname := username_of_find? users uname u hfind
  have hmainred : handleLoginScreen now cur users uname pw
      = loginPasswordPhase now cur users u pw := by
    rw [hred]
    cases hlk : u.lockedUntil with
    | none => rfl
    | some t =>
      have := htime t hlk
      simp only []
      rw [if_neg (by omega)]
  rw [hmainred, loginPasswordPhase_success now cur users u pw hok]
  refine ⟨rfl, rfl, rfl, ?_⟩
  rw [huname]
  rw [find?_updateFirst _ _ _ u (successUpdate_preserves_username now uname) hfind]
  simp [loginSuccessUpdate, huname]

/-- C10 witness: a concrete admin-locked user with an elapsed lockedUntil
still logs in successfully. -/
theorem C10_isLocked_not_consulted_at_login_witness :
    (handleLoginScreen 1000000 none [{ demoUser with isLocked := true }]
      "alice" "secret1").result = .success false := by
  exact (C10_isLocked_not_consulted_at_login 1000000 none
    [{ demoUser with isLocked := true }] "alice" "secret1"
    { demoUser with isLocked := true }
    (by decide) (by decide) (by decide) rfl
    (by intro t ht; simp [demoUser] at ht) (by decide)).1

/-- C7: the repair policy of the blogUsers read. If the parsed array is
empty while the in-memory mirror is non-empty, or the parsed array lacks
the reserved username zcr while the mirror contains it, the mirror is
written back to storage and returned to the caller. Otherwise (neither
anomaly present) the result is exactly the parsed array with the entries
lacking a truthy username or password filtered out, and whenever that
filtering removed anything the cleaned array is written back. -/
theorem C7_safeGetUsers_repair (parsed mem : List RawEntry) :
    (parsed.length = 0 → mem ≠ [] →
      safeGetUsers (.arr parsed) mem = { result := mem, written := some mem })
    ∧ (parsed.any entryIsZcr = false → mem.any entryIsZcr = true →
      safeGetUsers (.arr parsed) mem = { result := mem, written := some mem })
    ∧ ((parsed.any entryIsZcr = true ∨ mem.any entryIsZcr = false) →
       (parsed ≠ [] ∨ mem = []) →
      (safeGetUsers (.arr parsed) mem).result = parsed.filter entryValid
      ∧ ((parsed.filter entryValid).length ≠ parsed.length →
        (safeGetUsers (.arr parsed) mem).written = some (parsed.filter entryValid))
      ∧ ((parsed.filter entryValid).length = parsed.length →
        (safeGetUsers (.arr parsed) mem).written = none)) := by
  refine ⟨?_, ?_, ?_⟩
  · intro hlen hmem
    have hm : 0 < mem.length := List.length_pos.mpr hmem
    simp [safeGetUsers, hlen, hm]
  · intro hz hmz
    have hmem : mem ≠ [] := by
      intro h
      rw [h] at hmz
      exact absurd hmz (by decide)
    have hm : 0 < mem.length := List.length_pos.mpr hmem
    by_cases hlen : parsed.length = 0
    · simp [safeGetUsers, hlen, hm]
    · simp [safeGetUsers, hlen, hm, hz, hmz]
  · intro hno hne
    have hskip1 : ¬ (parsed.length = 0 ∧ 0 < mem.length) := by
      rintro ⟨h0, hm⟩
      rcases hne with h | h
      · exact h (List.length_eq_zero.mp h0)
      · rw [h] at hm
        exact absurd hm (by decide)
    by_cases h0 : parsed.length = 0
    · have hpe : parsed = [] := List.length_eq_zero.mp h0
      subst hpe
      have hm : ¬ 0 < mem.length := fun hm => hskip1 ⟨rfl, hm⟩
      refine ⟨?_, fun h => by simp at h, fun _ => ?_⟩ <;> simp [safeGetUsers, hm]
    · by_cases hz : parsed.any entryIsZcr
      · by_cases hfl : (parsed.filter entryValid).length = parsed.length
        · refine ⟨?_, fun h => absurd hfl h, fun _ => ?_⟩ <;>
            simp [safeGetUsers, h0, hz, hfl, filter_eq_self_of_length_eq _ _ hfl]
        · refine ⟨?_, fun _ => ?_, fun h => absurd h hfl⟩ <;>
            simp [safeGetUsers, h0, hz, hfl]
      · have hmz : mem.any entryIsZcr = false := by
          rcases hno with h | h
          · exact absurd h (by simpa using hz)
          · exact h
        by_cases hfl : (parsed.filter entryValid).length = parsed.length
        · refine ⟨?_, fun h => absurd hfl h, fun _ => ?_⟩ <;>
            simp [safeGetUsers, h0, hz, hmz, hfl, filter_eq_self_of_length_eq _ _ hfl]
        · refine ⟨?_, fun _ => ?_, fun h => absurd h hfl⟩ <;>
            simp [safeGetUsers, h0, hz, hmz, hfl]

/-- C7 witness: the theorem applied at concrete values: a read that lost
the admin account is repaired from the mirror, and a read containing an
entry without a password is cleaned and written back. -/
theorem C7_safeGetUsers_repair_witness :
    (safeGetUsers (.arr [.obj (some "bob") (some "x")])
        [.obj (some "zcr") (some "h"), .obj (some "bob") (some "x")]
      = { result := [.obj (some "zcr") (some "h"), .obj (some "bob") (some "x")],
          written := some [.obj (some "zcr") (some "h"), .obj (some "bob") (some "x")] })
    ∧ ((safeGetUsers (.arr [.obj (some "zcr") (some "h"), .obj (some "bob") none]) []).result
      = [.obj (some "zcr") (some "h")]) := by
  have h1 := (C7_safeGetUsers_repair [.obj (some "bob") (some "x")]
    [.obj (some "zcr") (some "h"), .obj (some "bob") (some "x")]).2.1 (by decide) (by decide)
  have h2 := ((C7_safeGetUsers_repair [.obj (some "zcr") (some "h"), .obj (some "bob") none]
    []).2.2 (Or.inl (by decide)) (Or.inr rfl)).1
  exact ⟨h1, by rw [h2]; decide⟩

end Blog
